import Mathlib

/-!
Verification of the smartschool agenda adapters (src/smartschool/agenda.py)
and of the generic fetch/parse/instantiate/cache pipeline they share.

The concrete adapter code (parameter builders, the moment-id constructor,
the post-processing hook, the hour lookup) is embedded directly from
src/smartschool/agenda.py.  The shared base class (the Response Parser,
Cache Layer and fetch pipeline of `SmartschoolXML`) and the typed record
definitions live in files that are not part of this source tree; those are
modelled from the specification, as marked on each such definition.
-/

/-- Errors raised by the code.  The concrete code raises Python exceptions:
`ValueError` (the spec's InvalidArgument and NotFound), `KeyError` and
`TypeError` (dict/indexing failures inside hooks), and a parse failure
(the spec's MalformedResponse). -/
inductive PyError where
  | valueError (msg : String)
  | keyError (key : String)
  | typeError (msg : String)
  | malformedResponse (msg : String)
  deriving DecidableEq, Repr

/-- The whitespace characters stripped by Python str.strip (ASCII range). -/
def isPySpace (c : Char) : Bool :=
  c == ' ' || c == '\t' || c == '\n' || c == '\r' || c == '\x0b' || c == '\x0c'

/-- Python str.strip: remove leading and trailing whitespace. -/
def pyStrip (s : String) : String :=
  ⟨((s.toList.dropWhile isPySpace).reverse.dropWhile isPySpace).reverse⟩

/-- A Python value passed to an adapter constructor or stored in a params
dict: the code only ever passes strings and integers here. -/
inductive PyVal where
  | str (s : String)
  | int (n : Int)
  deriving DecidableEq, Repr

/-- Python str(...) conversion on the values above. -/
def pyStr : PyVal → String
  | .str s => s
  | .int n => toString n

/-- Python dict lookup d[k]: the first (unique) binding of the key. -/
def dictGet (d : List (String × α)) (k : String) : Option α :=
  (d.find? (fun p => p.1 == k)).map Prod.snd

/-- Python dict assignment d[k] = v: replaces the value in place when the
key is present, appends the binding otherwise. -/
def dictSet : List (String × α) → String → α → List (String × α)
  | [], k, v => [(k, v)]
  | (k0, v0) :: rest, k, v =>
      if k0 == k then (k0, v) :: rest else (k0, v0) :: dictSet rest k v

/-- `SmartschoolLessons._params` (src/smartschool/agenda.py lines 68-85):
the request parameters of the lessons adapter, with the wall-clock reading
`int(time.time())` passed in as `now`. -/
def SmartschoolLessons.params (now : Int) : List (String × PyVal) :=
  let in_5_days := now + 5 * 24 * 3600
  [("startDateTimestamp", .int now),
   ("endDateTimestamp", .int in_5_days),
   ("filterType", .str "false"),
   ("filterID", .str "false"),
   ("gridType", .str "1"),
   ("classID", .str "0"),
   ("endDateTimestampOld", .int in_5_days),
   ("forcedTeacher", .str "0"),
   ("forcedClass", .str "0"),
   ("forcedClassroom", .str "0"),
   ("assignmentTypeID", .str "1")]

/-- `SmartschoolLessons._xpath` (src/smartschool/agenda.py line 54). -/
def SmartschoolLessons.xpath : String := ".//lesson"

/-- `SmartschoolHours._xpath` (src/smartschool/agenda.py line 105). -/
def SmartschoolHours.xpath : String := ".//hour"

/-- `SmartschoolHours._params` (src/smartschool/agenda.py lines 119-121). -/
def SmartschoolHours.params (now : Int) : List (String × PyVal) :=
  [("date", .int now)]

/-- Modelled from the spec: the typed record `AgendaHour` is defined in the
missing objects module; its fields are the ones documented on the hours
adapter (hourID, start, end, title). -/
structure AgendaHour where
  hourID : String
  start : String
  «end» : String
  title : String
  deriving DecidableEq, Repr

/-- `SmartschoolHours.search_by_hourId` (src/smartschool/agenda.py lines
123-128): linear scan over the fetched sequence of hours (the sequence
`self._xml(date_to_use)` is passed in as `hours`), returning the first
record whose hourID equals the requested id, raising
`ValueError(f"Couldn\x27t find {hourId}")` otherwise. -/
def SmartschoolHours.search_by_hourId (hours : List AgendaHour) (hourId : String) :
    Except PyError AgendaHour :=
  match hours with
  | [] => .error (.valueError ("Couldn\x27t find " ++ hourId))
  | h :: rest =>
      if h.hourID == hourId then .ok h
      else SmartschoolHours.search_by_hourId rest hourId

/-- The state of a constructed `SmartschoolMomentInfos` adapter: the only
instance attribute is the validated moment id (src/smartschool/agenda.py
line 151). -/
structure SmartschoolMomentInfos where
  moment_id : String
  deriving DecidableEq, Repr

/-- `SmartschoolMomentInfos.__init__` (src/smartschool/agenda.py lines
146-151): `moment_id = str(moment_id).strip()`; raises
`ValueError("Please provide a valid MomentID")` when falsy (empty). -/
def SmartschoolMomentInfos.init (moment_id : PyVal) :
    Except PyError SmartschoolMomentInfos :=
  let m := pyStrip (pyStr moment_id)
  if m = "" then .error (.valueError "Please provide a valid MomentID")
  else .ok ⟨m⟩

/-- `SmartschoolMomentInfos._params` (src/smartschool/agenda.py lines
169-176). -/
def SmartschoolMomentInfos.params (self : SmartschoolMomentInfos) :
    List (String × PyVal) :=
  [("momentID", .str self.moment_id),
   ("dateID", .str ""),
   ("assignmentIDs", .str ""),
   ("activityID", .str "0")]

/-- `SmartschoolMomentInfos._xpath` (src/smartschool/agenda.py line 155). -/
def SmartschoolMomentInfos.xpath : String := ".//class"

/-- A value of a parsed raw element, as produced by the XML-to-mapping
conversion the post-processing hooks operate on: null, a string, a list,
or a nested mapping. -/
inductive XVal where
  | null
  | str (s : String)
  | list (xs : List XVal)
  | dict (d : List (String × XVal))

/-- `SmartschoolMomentInfos._post_process_element` (src/smartschool/agenda.py
lines 178-187).  The element is a dict; the hook rewrites its
"assignments" field: None becomes the empty list, a nested mapping whose
"assignment" entry is a list is collapsed to that list, any other
"assignment" entry is wrapped in a one-element list.  A missing key raises
KeyError, and indexing a non-mapping with a string raises TypeError, as in
Python. -/
def SmartschoolMomentInfos.post_process_element
    (element : List (String × XVal)) : Except PyError (List (String × XVal)) :=
  match dictGet element "assignments" with
  | none => .error (.keyError "assignments")
  | some XVal.null => .ok (dictSet element "assignments" (.list []))
  | some (XVal.dict d) =>
      match dictGet d "assignment" with
      | none => .error (.keyError "assignment")
      | some (XVal.list xs) => .ok (dictSet element "assignments" (.list xs))
      | some v => .ok (dictSet element "assignments" (.list [v]))
  | some (XVal.str _) => .error (.typeError "string indices must be integers")
  | some (XVal.list _) => .error (.typeError "list indices must be integers")

/-- Modelled from the spec: the typed record `AgendaLesson` of the missing
objects module; a flat attribute bag whose concrete shape is out of the
core contract, modelled as field name/value pairs. -/
structure AgendaLesson where
  fields : List (String × String)
  deriving DecidableEq, Repr

/-- Modelled from the spec: the typed record `AgendaMomentInfo` of the
missing objects module; a flat attribute bag modelled as field name/value
pairs. -/
structure AgendaMomentInfo where
  fields : List (String × String)
  deriving DecidableEq, Repr

/-- A class-level cache of one adapter class: a mapping from Cache Key to
the memoized ordered sequence of typed records (the `cache` ClassVar dicts,
src/smartschool/agenda.py lines 50, 101, 144). -/
abbrev Cache (α : Type) : Type := List (String × List α)

/-- Modelled from the spec: the Cache Layer's getOrFetch of the missing
`SmartschoolXML` base class.  On a key hit it returns the stored sequence
without invoking the session provider; on a miss it performs the network
call (`net` is its outcome), stores a successful result under the key, and
propagates a failed one unchanged without storing anything.  The returned
Nat counts how many network calls were performed (0 or 1). -/
def getOrFetch (cache : Cache α) (key : String) (net : Except PyError (List α)) :
    Except PyError (List α) × Cache α × Nat :=
  match dictGet cache key with
  | some v => (.ok v, cache, 0)
  | none =>
      match net with
      | .ok v => (.ok v, dictSet cache key v, 1)
      | .error e => (.error e, cache, 1)

/-- The process-wide cache state: one distinct class-level dict per adapter
class (src/smartschool/agenda.py lines 50, 101, 144). -/
structure AgendaCaches where
  lessonsCache : Cache AgendaLesson
  hoursCache : Cache AgendaHour
  momentInfosCache : Cache AgendaMomentInfo

/-- The test-harness cache reset hook (src/tests/conftest.py lines 33-42):
iterates over every adapter class that has a `cache` attribute and clears
each dict. -/
def clear_all_caches (_s : AgendaCaches) : AgendaCaches :=
  AgendaCaches.mk [] [] []

/-- One mutation of the per-class caches: a store (a successful fetch
writing its result under a key) or a clear of one class-level dict. -/
inductive CacheOp where
  | storeLessons (k : String) (v : List AgendaLesson)
  | clearLessons
  | storeHours (k : String) (v : List AgendaHour)
  | clearHours
  | storeMomentInfos (k : String) (v : List AgendaMomentInfo)
  | clearMomentInfos

/-- The adapter class a cache operation belongs to. -/
inductive AdapterClass where
  | lessons
  | hours
  | momentInfos
  deriving DecidableEq, Repr

/-- Which adapter class a cache operation touches. -/
def CacheOp.target : CacheOp → AdapterClass
  | .storeLessons _ _ => .lessons
  | .clearLessons => .lessons
  | .storeHours _ _ => .hours
  | .clearHours => .hours
  | .storeMomentInfos _ _ => .momentInfos
  | .clearMomentInfos => .momentInfos

/-- Apply one cache operation to the process-wide cache state. -/
def CacheOp.apply : CacheOp → AgendaCaches → AgendaCaches
  | .storeLessons k v, s =>
      AgendaCaches.mk (dictSet s.lessonsCache k v) s.hoursCache s.momentInfosCache
  | .clearLessons, s => AgendaCaches.mk [] s.hoursCache s.momentInfosCache
  | .storeHours k v, s =>
      AgendaCaches.mk s.lessonsCache (dictSet s.hoursCache k v) s.momentInfosCache
  | .clearHours, s => AgendaCaches.mk s.lessonsCache [] s.momentInfosCache
  | .storeMomentInfos k v, s =>
      AgendaCaches.mk s.lessonsCache s.hoursCache (dictSet s.momentInfosCache k v)
  | .clearMomentInfos, s => AgendaCaches.mk s.lessonsCache s.hoursCache []

/-- Run a sequence of cache operations, oldest first. -/
def runOps : List CacheOp → AgendaCaches → AgendaCaches
  | [], s => s
  | op :: rest, s => runOps rest (op.apply s)

/-- A node of a parsed XML document: text, or an element with a tag and an
ordered list of children. -/
inductive Xml where
  | text (s : String)
  | elem (tag : String) (children : List Xml)

/-- A character allowed in an XML tag name in this model. -/
def isTagChar (c : Char) : Bool :=
  !(c == '<') && !(c == '>') && !(c == '/') && !(isPySpace c)

/-- Modelled from the spec: the recursive-descent XML reader underlying the
Response Parser of the missing `SmartschoolXML` base class.  Parses a
sequence of sibling nodes, stopping at a closing tag or at the end of the
input; returns none when the text is not well-formed (unterminated or
mismatched tags).  `fuel` bounds the recursion and exceeds any reachable
depth when set to the input length plus one. -/
def parseNodes : Nat → List Char → Option (List Xml × List Char)
  | 0, _ => none
  | _ + 1, [] => some ([], [])
  | _ + 1, '<' :: '/' :: rest => some ([], '<' :: '/' :: rest)
  | fuel + 1, '<' :: rest =>
      let tag := rest.takeWhile isTagChar
      if tag.isEmpty then none
      else
        match rest.dropWhile isTagChar with
        | '>' :: body =>
            match parseNodes fuel body with
            | none => none
            | some (children, rem) =>
                match rem with
                | '<' :: '/' :: rem2 =>
                    if rem2.take tag.length == tag then
                      match rem2.drop tag.length with
                      | '>' :: after =>
                          match parseNodes fuel after with
                          | none => none
                          | some (siblings, rem3) =>
                              some (Xml.elem ⟨tag⟩ children :: siblings, rem3)
                      | _ => none
                    else none
                | _ => none
        | _ => none
  | fuel + 1, c :: rest =>
      match parseNodes fuel ((c :: rest).dropWhile (fun x => !(x == '<'))) with
      | none => none
      | some (nodes, rem) =>
          some (Xml.text ⟨(c :: rest).takeWhile (fun x => !(x == '<'))⟩ :: nodes, rem)

/-- Modelled from the spec: parse a whole document, which must be a single
root element with no trailing content; none means the text is not
parseable as XML. -/
def parseXml (raw : String) : Option Xml :=
  match parseNodes (raw.toList.length + 1) raw.toList with
  | some ([Xml.elem t ch], []) => some (Xml.elem t ch)
  | _ => none

/-- Collect every node of a tree (in document order, self included) whose
tag equals the searched tag; `fuel` bounds the descent depth and exceeds
any reachable depth when set to the document text length plus one. -/
def collectNode : Nat → String → Xml → List Xml
  | 0, _, _ => []
  | _, _, .text _ => []
  | fuel + 1, tag, .elem t children =>
      (if t == tag then [Xml.elem t children] else []) ++
        (children.map (collectNode fuel tag)).flatten

/-- Modelled from the spec: evaluation of a descendant selector such as
`.//lesson` on a document: every element anywhere below the root whose tag
is the searched one, in document order. -/
def collectDescendants (fuel : Nat) (tag : String) : Xml → List Xml
  | .text _ => []
  | .elem _ children => (children.map (collectNode fuel tag)).flatten

/-- The tag named by a path selector of the form `.//tag`. -/
def selectorTag (sel : String) : String :=
  ⟨sel.toList.dropWhile (fun c => c == '.' || c == '/')⟩

/-- Modelled from the spec: the Response Parser contract
parse(rawXml, selector) of the missing `SmartschoolXML` base class.  On
well-formed input it returns the (possibly empty) sequence of selected
nodes; on unparseable input it fails with MalformedResponse. -/
def parse (raw : String) (selector : String) : Except PyError (List Xml) :=
  match parseXml raw with
  | none => .error (.malformedResponse "syntax error: not well-formed")
  | some doc =>
      .ok (collectDescendants (raw.toList.length + 1) (selectorTag selector) doc)

/-- Reading back the key just written: Python dict assignment followed by a
lookup of the same key yields the assigned value. -/
theorem dictGet_dictSet (d : List (String × α)) (k : String) (v : α) :
    dictGet (dictSet d k v) k = some v := by
  induction d with
  | nil => simp [dictGet, dictSet, List.find?]
  | cons p rest ih =>
      obtain ⟨k0, v0⟩ := p
      by_cases hc : k0 == k
      · simp [dictGet, dictSet, hc, List.find?]
      · simp only [dictSet, hc, if_false, Bool.false_eq_true]
        simpa [dictGet, List.find?, hc] using ih

/-- Claim C8: the lessons adapter's parameter builder, with the wall-clock
reading passed in as now, satisfies startDateTimestamp = now,
endDateTimestamp = now + 5*24*3600, endDateTimestampOld =
endDateTimestamp: a lookahead window of exactly 432000 seconds. -/
theorem C8_lessons_params_window (now : Int) :
    dictGet (SmartschoolLessons.params now) "startDateTimestamp" =
      some (.int now) ∧
    dictGet (SmartschoolLessons.params now) "endDateTimestamp" =
      some (.int (now + 5 * 24 * 3600)) ∧
    dictGet (SmartschoolLessons.params now) "endDateTimestampOld" =
      some (.int (now + 5 * 24 * 3600)) ∧
    (now + 5 * 24 * 3600) - now = 432000 := by
  refine ⟨rfl, rfl, rfl, by ring⟩

/-- Claim C5: constructing the moment-info adapter from an empty or
whitespace-only identifier raises the invalid-argument ValueError, while
the identifier "12345" is accepted and the built request parameters carry
momentID = "12345". -/
theorem C5_momentinfos_validation (s : String)
    (hws : ∀ c ∈ s.toList, isPySpace c = true) :
    SmartschoolMomentInfos.init (.str s) =
      .error (.valueError "Please provide a valid MomentID") ∧
    ∃ a, SmartschoolMomentInfos.init (.str "12345") = .ok a ∧
      dictGet a.params "momentID" = some (.str "12345") := by
  constructor
  · have h1 : s.toList.dropWhile isPySpace = [] :=
      List.dropWhile_eq_nil_iff.mpr hws
    have hstrip : pyStrip s = "" := by
      unfold pyStrip
      rw [h1]
      rfl
    simp [SmartschoolMomentInfos.init, pyStr, hstrip]
  · exact ⟨⟨"12345"⟩, rfl, rfl⟩

/-- Concrete instance of C5 at the whitespace-only identifier " ". -/
theorem C5_witness :
    (∀ c ∈ (" ").toList, isPySpace c = true) ∧
    (SmartschoolMomentInfos.init (.str " ") =
        .error (.valueError "Please provide a valid MomentID") ∧
      ∃ a, SmartschoolMomentInfos.init (.str "12345") = .ok a ∧
        dictGet a.params "momentID" = some (.str "12345")) :=
  ⟨by decide, C5_momentinfos_validation " " (by decide)⟩

/-- Claim C9: the moment-info constructor stringifies and strips its
argument before validating: every value whose stripped string form is
non-empty is accepted, and the momentID parameter equals the stripped
string form, not the value as supplied. -/
theorem C9_momentinfos_normalization (v : PyVal)
    (h : pyStrip (pyStr v) ≠ "") :
    ∃ a, SmartschoolMomentInfos.init v = .ok a ∧
      a.moment_id = pyStrip (pyStr v) ∧
      dictGet a.params "momentID" = some (.str (pyStrip (pyStr v))) := by
  refine ⟨⟨pyStrip (pyStr v)⟩, ?_, rfl, rfl⟩
  simp [SmartschoolMomentInfos.init, h]

/-- Concrete instance of C9 at the integer argument 12345. -/
theorem C9_witness :
    pyStrip (pyStr (.int 12345)) ≠ "" ∧
    ∃ a, SmartschoolMomentInfos.init (.int 12345) = .ok a ∧
      a.moment_id = pyStrip (pyStr (.int 12345)) ∧
      dictGet a.params "momentID" = some (.str (pyStrip (pyStr (.int 12345)))) :=
  ⟨by decide, C9_momentinfos_normalization (.int 12345) (by decide)⟩

/-- Claim C4: search_by_hourId is a linear scan over the fetched sequence:
it returns the first record whose hourID equals the requested id when one
exists, and raises the not-found ValueError whose message carries the
searched id when none does. -/
theorem C4_search_by_hourId_spec (hours : List AgendaHour) (hourId : String) :
    (∀ h, hours.find? (fun x => x.hourID == hourId) = some h →
        SmartschoolHours.search_by_hourId hours hourId = .ok h) ∧
    (hours.find? (fun x => x.hourID == hourId) = none →
        ∃ m, SmartschoolHours.search_by_hourId hours hourId =
            .error (.valueError m) ∧ ∃ p, m = p ++ hourId) := by
  induction hours with
  | nil =>
      refine ⟨fun h hh => by simp [List.find?] at hh, fun _ => ?_⟩
      exact ⟨"Couldn\x27t find " ++ hourId, rfl, "Couldn\x27t find ", rfl⟩
  | cons a rest ih =>
      by_cases hc : a.hourID == hourId
      · refine ⟨fun h hh => ?_, fun hn => ?_⟩
        · simp only [List.find?, hc] at hh
          cases hh
          simp [SmartschoolHours.search_by_hourId, hc]
        · simp only [List.find?, hc] at hn
          cases hn
      · refine ⟨fun h hh => ?_, fun hn => ?_⟩
        · simp only [List.find?, Bool.not_eq_true] at hh
          rw [Bool.not_eq_true] at hc
          rw [hc] at hh
          simpa [SmartschoolHours.search_by_hourId, hc] using ih.1 h hh
        · simp only [List.find?] at hn
          rw [Bool.not_eq_true] at hc
          rw [hc] at hn
          simpa [SmartschoolHours.search_by_hourId, hc] using ih.2 hn

/-- Concrete instance of C4: a present id is found (first match) and an
absent id raises an error carrying the id. -/
theorem C4_witness :
    ([AgendaHour.mk "1" "08:25" "09:15" "first",
        AgendaHour.mk "2" "09:15" "10:05" "second"].find?
      (fun x => x.hourID == "2") = some (AgendaHour.mk "2" "09:15" "10:05" "second")) ∧
    SmartschoolHours.search_by_hourId
        [AgendaHour.mk "1" "08:25" "09:15" "first",
          AgendaHour.mk "2" "09:15" "10:05" "second"] "2" =
      .ok (AgendaHour.mk "2" "09:15" "10:05" "second") ∧
    (∃ m, SmartschoolHours.search_by_hourId
        [AgendaHour.mk "1" "08:25" "09:15" "first"] "9" =
          .error (.valueError m) ∧ ∃ p, m = p ++ "9") :=
  ⟨rfl,
   (C4_search_by_hourId_spec
      [AgendaHour.mk "1" "08:25" "09:15" "first",
        AgendaHour.mk "2" "09:15" "10:05" "second"] "2").1
     (AgendaHour.mk "2" "09:15" "10:05" "second") rfl,
   (C4_search_by_hourId_spec [AgendaHour.mk "1" "08:25" "09:15" "first"] "9").2 rfl⟩

/-- Claim C3: the moment-info post-processing hook normalizes the
assignments field: null becomes the empty list, a nested mapping whose
assignment entry is a list collapses to that list, any other assignment
entry is wrapped in a one-element list; whenever the hook succeeds, the
resulting assignments field is a list. -/
theorem C3_post_process_normalizes (element : List (String × XVal)) :
    (dictGet element "assignments" = some XVal.null →
        SmartschoolMomentInfos.post_process_element element =
          .ok (dictSet element "assignments" (.list []))) ∧
    (∀ d xs, dictGet element "assignments" = some (XVal.dict d) →
        dictGet d "assignment" = some (XVal.list xs) →
        SmartschoolMomentInfos.post_process_element element =
          .ok (dictSet element "assignments" (.list xs))) ∧
    (∀ d v, dictGet element "assignments" = some (XVal.dict d) →
        dictGet d "assignment" = some v → (∀ xs, v ≠ XVal.list xs) →
        SmartschoolMomentInfos.post_process_element element =
          .ok (dictSet element "assignments" (.list [v]))) ∧
    (∀ r, SmartschoolMomentInfos.post_process_element element = .ok r →
        ∃ xs, dictGet r "assignments" = some (XVal.list xs)) := by
  refine ⟨fun hnull => ?_, fun d xs hd ha => ?_, fun d v hd ha hnl => ?_,
    fun r hr => ?_⟩
  · simp [SmartschoolMomentInfos.post_process_element, hnull]
  · simp [SmartschoolMomentInfos.post_process_element, hd, ha]
  · cases v with
    | null => simp [SmartschoolMomentInfos.post_process_element, hd, ha]
    | str s => simp [SmartschoolMomentInfos.post_process_element, hd, ha]
    | list xs => exact absurd rfl (hnl xs)
    | dict d2 => simp [SmartschoolMomentInfos.post_process_element, hd, ha]
  · cases hA : dictGet element "assignments" with
    | none => simp [SmartschoolMomentInfos.post_process_element, hA] at hr
    | some w =>
        cases w with
        | null =>
            simp [SmartschoolMomentInfos.post_process_element, hA] at hr
            exact hr ▸ ⟨[], dictGet_dictSet element "assignments" (.list [])⟩
        | str s => simp [SmartschoolMomentInfos.post_process_element, hA] at hr
        | list xs => simp [SmartschoolMomentInfos.post_process_element, hA] at hr
        | dict d =>
            cases hB : dictGet d "assignment" with
            | none =>
                simp [SmartschoolMomentInfos.post_process_element, hA, hB] at hr
            | some u =>
                cases u with
                | null =>
                    simp [SmartschoolMomentInfos.post_process_element, hA, hB] at hr
                    exact hr ▸ ⟨[XVal.null], dictGet_dictSet element "assignments" _⟩
                | str s =>
                    simp [SmartschoolMomentInfos.post_process_element, hA, hB] at hr
                    exact hr ▸ ⟨[XVal.str s], dictGet_dictSet element "assignments" _⟩
                | list xs =>
                    simp [SmartschoolMomentInfos.post_process_element, hA, hB] at hr
                    exact hr ▸ ⟨xs, dictGet_dictSet element "assignments" _⟩
                | dict d2 =>
                    simp [SmartschoolMomentInfos.post_process_element, hA, hB] at hr
                    exact hr ▸ ⟨[XVal.dict d2], dictGet_dictSet element "assignments" _⟩

/-- Concrete instances of C3: a null, a singleton and a two-element
assignments node are normalized to the empty, one-element and two-element
lists. -/
theorem C3_witness :
    SmartschoolMomentInfos.post_process_element
        [("hourID", XVal.str "5"), ("assignments", XVal.null)] =
      .ok (dictSet [("hourID", XVal.str "5"), ("assignments", XVal.null)]
        "assignments" (.list [])) ∧
    SmartschoolMomentInfos.post_process_element
        [("assignments", XVal.dict [("assignment", XVal.str "t1")])] =
      .ok (dictSet [("assignments", XVal.dict [("assignment", XVal.str "t1")])]
        "assignments" (.list [XVal.str "t1"])) ∧
    SmartschoolMomentInfos.post_process_element
        [("assignments",
            XVal.dict [("assignment", XVal.list [XVal.str "t1", XVal.str "t2"])])] =
      .ok (dictSet
        [("assignments",
            XVal.dict [("assignment", XVal.list [XVal.str "t1", XVal.str "t2"])])]
        "assignments" (.list [XVal.str "t1", XVal.str "t2"])) :=
  ⟨(C3_post_process_normalizes
      [("hourID", XVal.str "5"), ("assignments", XVal.null)]).1 rfl,
   (C3_post_process_normalizes
      [("assignments", XVal.dict [("assignment", XVal.str "t1")])]).2.2.1
     [("assignment", XVal.str "t1")] (XVal.str "t1") rfl rfl
     (fun xs h => by cases h),
   (C3_post_process_normalizes
      [("assignments",
          XVal.dict [("assignment", XVal.list [XVal.str "t1", XVal.str "t2"])])]).2.1
     [("assignment", XVal.list [XVal.str "t1", XVal.str "t2"])]
     [XVal.str "t1", XVal.str "t2"] rfl rfl⟩

/-- Claim C1: for any adapter's class-level cache, fetching twice with the
same key and no clear in between performs the network call exactly once:
the first (miss) call fetches and stores, the second is a hit returning
the identical stored sequence with zero network calls, whatever the
session provider would have returned. -/
theorem C1_fetch_twice_single_call {α : Type} (cache : Cache α) (key : String)
    (v : List α) (net2 : Except PyError (List α))
    (hmiss : dictGet cache key = none) :
    getOrFetch cache key (.ok v) = (.ok v, dictSet cache key v, 1) ∧
    getOrFetch (dictSet cache key v) key net2 =
      (.ok v, dictSet cache key v, 0) := by
  constructor
  · simp [getOrFetch, hmiss]
  · simp [getOrFetch, dictGet_dictSet]

/-- Concrete instance of C1 on the hours adapter's cache: a miss then a
hit, one network call in total, and the second provider outcome is never
consulted. -/
theorem C1_witness :
    dictGet ([] : Cache AgendaHour) "2023-11-16" = none ∧
    (getOrFetch ([] : Cache AgendaHour) "2023-11-16"
        (.ok [AgendaHour.mk "1" "08:25" "09:15" "first"]) =
      (.ok [AgendaHour.mk "1" "08:25" "09:15" "first"],
        dictSet [] "2023-11-16" [AgendaHour.mk "1" "08:25" "09:15" "first"], 1) ∧
    getOrFetch (dictSet [] "2023-11-16" [AgendaHour.mk "1" "08:25" "09:15" "first"])
        "2023-11-16" (.error (.malformedResponse "boom")) =
      (.ok [AgendaHour.mk "1" "08:25" "09:15" "first"],
        dictSet [] "2023-11-16" [AgendaHour.mk "1" "08:25" "09:15" "first"], 0)) :=
  ⟨rfl, C1_fetch_twice_single_call [] "2023-11-16"
    [AgendaHour.mk "1" "08:25" "09:15" "first"]
    (.error (.malformedResponse "boom")) rfl⟩

/-- Claim C2: a failed fetch stores no cache entry: the error is propagated
to the caller unchanged (never swallowed or downgraded) and the cache is
left exactly as it was, so the same key is still a miss and a subsequent
fetch performs the network request again. -/
theorem C2_failed_fetch_not_cached {α : Type} (cache : Cache α) (key : String)
    (e : PyError) (v : List α) (hmiss : dictGet cache key = none) :
    getOrFetch cache key (.error e) = (.error e, cache, 1) ∧
    getOrFetch cache key (.ok v) = (.ok v, dictSet cache key v, 1) := by
  exact ⟨by simp [getOrFetch, hmiss], by simp [getOrFetch, hmiss]⟩

/-- Concrete instance of C2 on the lessons adapter's cache: the failed
fetch leaves the cache empty and the retry performs a fresh network
call. -/
theorem C2_witness :
    dictGet ([] : Cache AgendaLesson) "2023-11-16" = none ∧
    (getOrFetch ([] : Cache AgendaLesson) "2023-11-16"
        (.error (.malformedResponse "syntax error: not well-formed")) =
      (.error (.malformedResponse "syntax error: not well-formed"), [], 1) ∧
    getOrFetch ([] : Cache AgendaLesson) "2023-11-16"
        (.ok [AgendaLesson.mk [("momentID", "42")]]) =
      (.ok [AgendaLesson.mk [("momentID", "42")]],
        dictSet [] "2023-11-16" [AgendaLesson.mk [("momentID", "42")]], 1)) :=
  ⟨rfl, C2_failed_fetch_not_cached [] "2023-11-16"
    (.malformedResponse "syntax error: not well-formed")
    [AgendaLesson.mk [("momentID", "42")]] rfl⟩

/-- Claim C6: the reset hook empties every adapter class's cache: after
clearing, every lookup misses and a fetch for any previously cached key
performs a new network call instead of returning the stored sequence. -/
theorem C6_clear_makes_fetch_miss (s : AgendaCaches) (key : String)
    (v : List AgendaLesson) (w : List AgendaHour) (u : List AgendaMomentInfo) :
    dictGet (clear_all_caches s).lessonsCache key = none ∧
    dictGet (clear_all_caches s).hoursCache key = none ∧
    dictGet (clear_all_caches s).momentInfosCache key = none ∧
    getOrFetch (clear_all_caches s).lessonsCache key (.ok v) =
      (.ok v, dictSet [] key v, 1) ∧
    getOrFetch (clear_all_caches s).hoursCache key (.ok w) =
      (.ok w, dictSet [] key w, 1) ∧
    getOrFetch (clear_all_caches s).momentInfosCache key (.ok u) =
      (.ok u, dictSet [] key u, 1) :=
  ⟨rfl, rfl, rfl, rfl, rfl, rfl⟩

/-- Claim C10: the three adapter classes own distinct class-level caches:
any sequence of stores and clears aimed at one adapter class leaves the
cache contents of the other two classes unchanged. -/
theorem C10_cache_isolation (ops : List CacheOp) (s : AgendaCaches) :
    ((∀ op ∈ ops, op.target = AdapterClass.lessons) →
        (runOps ops s).hoursCache = s.hoursCache ∧
        (runOps ops s).momentInfosCache = s.momentInfosCache) ∧
    ((∀ op ∈ ops, op.target = AdapterClass.hours) →
        (runOps ops s).lessonsCache = s.lessonsCache ∧
        (runOps ops s).momentInfosCache = s.momentInfosCache) ∧
    ((∀ op ∈ ops, op.target = AdapterClass.momentInfos) →
        (runOps ops s).lessonsCache = s.lessonsCache ∧
        (runOps ops s).hoursCache = s.hoursCache) := by
  induction ops generalizing s with
  | nil => exact ⟨fun _ => ⟨rfl, rfl⟩, fun _ => ⟨rfl, rfl⟩, fun _ => ⟨rfl, rfl⟩⟩
  | cons op rest ih =>
      have hstep : ∀ s0, runOps (op :: rest) s0 = runOps rest (op.apply s0) :=
        fun _ => rfl
      refine ⟨fun hall => ?_, fun hall => ?_, fun hall => ?_⟩ <;>
        [skip; skip; skip] <;>
        · have hop := hall op (List.mem_cons_self op rest)
          have hrest := fun x hx => hall x (List.mem_cons_of_mem op hx)
          rw [hstep]
          cases op with
          | storeLessons k v =>
              first
              | exact ((ih (CacheOp.apply (.storeLessons k v) s)).1 hrest).imp
                  (fun h => h.trans rfl) (fun h => h.trans rfl)
              | simp [CacheOp.target] at hop
          | clearLessons =>
              first
              | exact ((ih (CacheOp.apply .clearLessons s)).1 hrest).imp
                  (fun h => h.trans rfl) (fun h => h.trans rfl)
              | simp [CacheOp.target] at hop
          | storeHours k v =>
              first
              | exact ((ih (CacheOp.apply (.storeHours k v) s)).2.1 hrest).imp
                  (fun h => h.trans rfl) (fun h => h.trans rfl)
              | simp [CacheOp.target] at hop
          | clearHours =>
              first
              | exact ((ih (CacheOp.apply .clearHours s)).2.1 hrest).imp
                  (fun h => h.trans rfl) (fun h => h.trans rfl)
              | simp [CacheOp.target] at hop
          | storeMomentInfos k v =>
              first
              | exact ((ih (CacheOp.apply (.storeMomentInfos k v) s)).2.2 hrest).imp
                  (fun h => h.trans rfl) (fun h => h.trans rfl)
              | simp [CacheOp.target] at hop
          | clearMomentInfos =>
              first
              | exact ((ih (CacheOp.apply .clearMomentInfos s)).2.2 hrest).imp
                  (fun h => h.trans rfl) (fun h => h.trans rfl)
              | simp [CacheOp.target] at hop

/-- Concrete instance of C10: a store and a clear on the lessons cache
leave concrete hours and moment-info caches untouched. -/
theorem C10_witness :
    (∀ op ∈ ([CacheOp.storeLessons "2023-11-16" [AgendaLesson.mk [("momentID", "42")]],
        CacheOp.clearLessons] : List CacheOp), op.target = AdapterClass.lessons) ∧
    ((runOps [CacheOp.storeLessons "2023-11-16" [AgendaLesson.mk [("momentID", "42")]],
        CacheOp.clearLessons]
        (AgendaCaches.mk [] [("h", [AgendaHour.mk "1" "a" "b" "c"])]
          [("m", [])])).hoursCache =
      (AgendaCaches.mk [] [("h", [AgendaHour.mk "1" "a" "b" "c"])]
        [("m", [])]).hoursCache ∧
    (runOps [CacheOp.storeLessons "2023-11-16" [AgendaLesson.mk [("momentID", "42")]],
        CacheOp.clearLessons]
        (AgendaCaches.mk [] [("h", [AgendaHour.mk "1" "a" "b" "c"])]
          [("m", [])])).momentInfosCache =
      (AgendaCaches.mk [] [("h", [AgendaHour.mk "1" "a" "b" "c"])]
        [("m", [])]).momentInfosCache) :=
  ⟨by decide,
   (C10_cache_isolation
      [CacheOp.storeLessons "2023-11-16" [AgendaLesson.mk [("momentID", "42")]],
        CacheOp.clearLessons]
      (AgendaCaches.mk [] [("h", [AgendaHour.mk "1" "a" "b" "c"])] [("m", [])])).1
     (by decide)⟩

/-- Claim C7: the response parser returns the empty sequence, not an error,
on well-formed XML text where nothing matches the selector, and it fails
with MalformedResponse exactly when the text is not parseable as XML. -/
theorem C7_parse_empty_vs_malformed (raw selector : String) :
    (∀ doc, parseXml raw = some doc →
        collectDescendants (raw.length + 1) (selectorTag selector) doc = [] →
        parse raw selector = .ok []) ∧
    ((∃ m, parse raw selector = .error (.malformedResponse m)) ↔
      parseXml raw = none) := by
  constructor
  · intro doc hdoc hempty
    simp [parse, hdoc, hempty]
  · constructor
    · rintro ⟨m, hm⟩
      cases hp : parseXml raw with
      | none => rfl
      | some doc => simp [parse, hp] at hm
    · intro hp
      exact ⟨"syntax error: not well-formed", by simp [parse, hp]⟩

/-- Concrete instance of C7: a well-formed document with no matching node
parses to the empty sequence, and an unterminated document is rejected as
malformed. -/
theorem C7_witness :
    parseXml "<r><hour>x</hour></r>" =
      some (Xml.elem "r" [Xml.elem "hour" [Xml.text "x"]]) ∧
    collectDescendants (("<r><hour>x</hour></r>").length + 1)
        (selectorTag ".//lesson")
        (Xml.elem "r" [Xml.elem "hour" [Xml.text "x"]]) = [] ∧
    parse "<r><hour>x</hour></r>" ".//lesson" = .ok [] ∧
    ((∃ m, parse "<r>" ".//lesson" = .error (.malformedResponse m)) ↔
      parseXml "<r>" = none) :=
  ⟨rfl, rfl,
   (C7_parse_empty_vs_malformed "<r><hour>x</hour></r>" ".//lesson").1
     (Xml.elem "r" [Xml.elem "hour" [Xml.text "x"]]) rfl rfl,
   (C7_parse_empty_vs_malformed "<r>" ".//lesson").2⟩
